import Mathlib

/-!
Verification of `visual_documentation_agent.py` (proxsolver/iot).

The module is embedded shallowly: Python string primitives are modelled over
`List Char` (Lean strings are `List Char` underneath), the line-oriented
section extractor `_parse_input` becomes a fold over the input's lines, the
template renderer `_generate_visual_structure` becomes a list of emitted
blocks joined by newlines, and the diagram emitters become recursive
line-list builders.  All definitions are executable.
-/

namespace VisualDoc

/-! ### Python string primitives

Each helper mirrors the Python `str` method used by the source, restricted to
the ASCII inputs the program manipulates.  They are written over the
character list underlying `String` so that everything reduces by `decide`.
-/

/-- Python `str.startswith(pre)`. -/
def pyStartsWith (s pre : String) : Bool :=
  pre.data.isPrefixOf s.data

/-- The whitespace characters stripped by Python `str.strip()` (ASCII). -/
def isPyWs (c : Char) : Bool :=
  c == ' ' || c == '\t' || c == '\n' || c == '\r' || c == '\x0b' || c == '\x0c'

/-- Strip `isPyWs` characters from the right end of a character list. -/
def rstripChars (l : List Char) : List Char :=
  (l.reverse.dropWhile isPyWs).reverse

/-- Python `str.strip()`: drop whitespace from both ends. -/
def pyStrip (s : String) : String :=
  ⟨rstripChars (s.data.dropWhile isPyWs)⟩

/-- Python slicing `s[n:]` (character based; the source only slices ASCII). -/
def pyDrop (n : Nat) (s : String) : String :=
  ⟨s.data.drop n⟩

/-- Substring occurrence on character lists: `containsSub l pat` is Python's
`pat in l`.  The empty pattern is contained in everything, as in Python. -/
def containsSub (l pat : List Char) : Bool :=
  match l with
  | [] => pat.isEmpty
  | _ :: cs => pat.isPrefixOf l || containsSub cs pat

/-- Python `pat in s`. -/
def pyIn (pat s : String) : Bool :=
  containsSub s.data pat.data

/-- One step of Python `str.replace` on character lists; the pattern is
`p :: ps` (Python replace with a nonempty pattern, which is the only use in
the source: removing every occurrence of three backticks).  The `Nat`
argument is structural fuel, instantiated with the list's length — enough
fuel for the whole scan, and keeps the recursion kernel-reducible. -/
def replChars (p : Char) (ps rep : List Char) : Nat → List Char → List Char
  | _, [] => []
  | 0, l => l
  | Nat.succ n, c :: cs =>
    if (p :: ps).isPrefixOf (c :: cs) then
      rep ++ replChars p ps rep n (cs.drop ps.length)
    else
      c :: replChars p ps rep n cs

/-- Python `s.replace(pat, rep)` for a nonempty pattern (with an empty
pattern the source never calls it; we return `s` unchanged there). -/
def pyReplace (s pat rep : String) : String :=
  match pat.data with
  | [] => s
  | p :: ps => ⟨replChars p ps rep.data s.data.length s.data⟩

/-- Python `sep.join(parts)`. -/
def pyJoin (sep : String) : List String → String
  | [] => ""
  | [x] => x
  | x :: y :: xs => x ++ sep ++ pyJoin sep (y :: xs)

/-- Splitting a character list at every occurrence of `sep` (single
character).  Mirrors Python `str.split(sep)` for a one-character separator:
the result always has at least one (possibly empty) piece. -/
def splitChars (sep : Char) (l : List Char) : List (List Char) :=
  l.foldr
    (fun c acc =>
      if c == sep then [] :: acc
      else
        match acc with
        | [] => [[c]]
        | a :: as => (c :: a) :: as)
    [[]]

/-- Python `input_text.split('\n')`. -/
def pyLines (s : String) : List String :=
  (splitChars '\n' s.data).map String.mk

/-! ### Data model

Structures mirror the dataclasses and the `parsed` dictionary of the source.
`Component` and `Connection` are declared by the source but never populated
by extraction; they are carried for fidelity. -/

/-- Dataclass `Component` of the source. -/
structure Component where
  name : String
  model : String
  quantity : Nat
  purpose : String
  specs : String := ""
  cost : String := ""
  alternatives : List String := []
deriving DecidableEq

/-- Dataclass `Connection` of the source. -/
structure Connection where
  from_pin : String
  to_pin : String
  component : String
  signal : String
  wire_color : String := ""
deriving DecidableEq

/-- An entry of `parsed["code_blocks"]`: the dict
`{"language": ..., "code": ...}` appended by `_parse_input`. -/
structure CodeBlock where
  language : String
  code : String
deriving DecidableEq

/-- The `parsed` dictionary built by `_parse_input` (its fixed key set). -/
structure ParsedDocument where
  title : String := ""
  overview : String := ""
  components : List Component := []
  connections : List Connection := []
  code_blocks : List CodeBlock := []
  sections : List String := []
deriving DecidableEq

/-- The extraction loop's full state: the `parsed` dict plus the two local
variables `current_section` (Python `None`/`"components"`/`"connections"`/
`"code"`) and `code_buffer`. -/
structure ParseState where
  doc : ParsedDocument
  current_section : Option String
  code_buffer : List String
deriving DecidableEq

/-! ### The line classifier (`_parse_input`)

The rule predicates below name the conditions of the `if`/`elif` chain of
`_parse_input`, in the source's order. -/

/-- Rule 1 guard: `line.startswith('# ')`. -/
def isTitleLine (line : String) : Bool :=
  pyStartsWith line "# "

/-- Rule 2 guard: `"Parts needed" in line or "Components" in line`. -/
def isComponentsMarker (line : String) : Bool :=
  pyIn "Parts needed" line || pyIn "Components" line

/-- Rule 3 guard: `"Wiring" in line or "Pinout" in line`. -/
def isConnectionsMarker (line : String) : Bool :=
  pyIn "Wiring" line || pyIn "Pinout" line

/-- A line that switches to one of the two inert sections. -/
def isSectionMarker (line : String) : Bool :=
  isComponentsMarker line || isConnectionsMarker line

/-- Fence test: `line.strip().startswith("```")`. -/
def isFenceLine (line : String) : Bool :=
  pyStartsWith (pyStrip line) "```"

/-- The language tag recorded when a fence opens:
`line.strip().replace("```", "").strip()`, falling back to `"cpp"` when
empty (`language if language else "cpp"`). -/
def fenceLanguage (line : String) : String :=
  let language := pyStrip (pyReplace (pyStrip line) "```" "")
  if language == "" then "cpp" else language

/-- `parsed["code_blocks"][-1]["code"] = c`: overwrite the last block's
code; on the empty list this is the identity (the source guards with
`if parsed["code_blocks"]`). -/
def setLastCode (c : String) : List CodeBlock → List CodeBlock
  | [] => []
  | [b] => [{ b with code := c }]
  | b :: b' :: bs => b :: setLastCode c (b' :: bs)

/-- One iteration of the `for line in lines` loop of `_parse_input`:
the `if`/`elif` chain, first match wins. -/
def parseLine (st : ParseState) (line : String) : ParseState :=
  if isTitleLine line then
    { st with doc := { st.doc with title := pyStrip (pyDrop 2 line) } }
  else if isComponentsMarker line then
    { st with current_section := some "components" }
  else if isConnectionsMarker line then
    { st with current_section := some "connections" }
  else if isFenceLine line ∧ st.current_section ≠ some "code" then
    { st with
      current_section := some "code"
      code_buffer := []
      doc := { st.doc with
        code_blocks := st.doc.code_blocks ++ [⟨fenceLanguage line, ""⟩] } }
  else if st.current_section = some "code" ∧ isFenceLine line then
    { st with current_section := none }
  else if st.current_section = some "code" then
    let buf := st.code_buffer ++ [line]
    { st with
      code_buffer := buf
      doc := { st.doc with
        code_blocks :=
          if st.doc.code_blocks = [] then st.doc.code_blocks
          else setLastCode (pyJoin "\n" buf) st.doc.code_blocks } }
  else
    st

/-- The loop of `_parse_input` over a list of lines. -/
def runLines : ParseState → List String → ParseState
  | st, [] => st
  | st, l :: ls => runLines (parseLine st l) ls

/-- The initial `parsed` dict and loop variables of `_parse_input`. -/
def initState : ParseState :=
  ⟨{}, none, []⟩

/-- `_parse_input`: split on newlines, run the classifier loop, return the
`parsed` record. -/
def _parse_input (input_text : String) : ParsedDocument :=
  (runLines initState (pyLines input_text)).doc

/-! ### The template renderer (`_generate_visual_structure`)

Each `_generate_*` method returns a fixed template string (transcribed
verbatim from the source's triple-quoted literals; literal braces are
written `\x7b`/`\x7d`).  The methods take `self` in Python and ignore it, so
they become plain constants here; `_generate_quick_overview` also takes the
`parsed` record and ignores it. -/

/-- `_generate_quick_overview` (the `parsed` argument is unused, as in the
source). -/
def _generate_quick_overview (_parsed : ParsedDocument) : String :=
  "\n## Quick Overview\n\n> A brief summary of the project and its objectives.\n\n**Difficulty Level**: Beginner | **Time Required**: 2-3 hours | **Cost**: ~$25\n\n---\n\n"

/-- `_generate_toc`. -/
def _generate_toc : String :=
  "\n## Table of Contents\n\n1. [Introduction](#introduction)\n2. [System Architecture](#system-architecture)\n3. [Hardware Components](#hardware-components)\n4. [Circuit Diagram](#circuit-diagram)\n5. [Software Setup](#software-setup)\n6. [Step-by-Step Guide](#step-by-step-guide)\n7. [Testing & Troubleshooting](#testing--troubleshooting)\n8. [Next Steps](#next-steps)\n\n---\n\n"

/-- `_generate_architecture_section` (iot-only block). -/
def _generate_architecture_section : String :=
  "\n## 1. System Architecture\n\n### High-Level Architecture\n\n```mermaid\ngraph TB\n    subgraph \"Physical Layer\"\n        A[Sensors] --> B[Microcontroller]\n        B --> C[Actuators]\n    end\n\n    subgraph \"Communication Layer\"\n        B --> D[Communication Module]\n        D --> E[Cloud/Gateway]\n    end\n\n    subgraph \"Application Layer\"\n        E --> F[Database]\n        E --> G[API]\n        G --> H[Web Dashboard]\n    end\n\n    style A fill:#e1f5ff\n    style B fill:#fff4e1\n    style C fill:#e1f5ff\n    style E fill:#ffe1f5\n```\n\n### Data Flow\n\n```mermaid\nsequenceDiagram\n    participant Sensor\n    participant MCU\n    participant Cloud\n    participant User\n\n    Sensor->>MCU: Read Data\n    MCU->>MCU: Process Data\n    MCU->>Cloud: Transmit\n    Cloud->>User: Display\n```\n\n---\n\n"

/-- `_generate_components_section` (the static example gallery table). -/
def _generate_components_section : String :=
  "\n## 2. Hardware Components\n\n### Component Comparison\n\n| Component | Model | Quantity | Purpose | Specs | Cost |\n|-----------|-------|----------|---------|-------|------|\n| Microcontroller | ESP32 | 1 | Central processing | 240MHz dual-core | $5 |\n| Sensor | DHT22 | 1 | Temperature/Humidity | 0-100% RH | $5 |\n| Display | OLED 128x64 | 1 | Show readings | I2C interface | $8 |\n| Power | USB/Battery | 1 | Power system | 5V input | $2 |\n\n---\n\n"

/-- `_generate_circuit_section` (iot-only block). -/
def _generate_circuit_section : String :=
  "\n## 3. Circuit Diagram\n\n### Wiring Overview\n\n```mermaid\ngraph LR\n    ESP32[ESP32<br/>Microcontroller] -->|GPIO 4| DHT[DHT22<br/>Sensor]\n    ESP32 -->|I2C SDA| OLED[OLED<br/>Display]\n    ESP32 -->|I2C SCL| OLED\n    ESP32 -->|5V| VCC[Power<br/>Supply]\n\n    style ESP32 fill:#4CAF50,color:#fff\n    style DHT fill:#2196F3,color:#fff\n    style OLED fill:#FF9800,color:#fff\n```\n\n### Connection Table\n\n| From (ESP32) | To (Component) | Pin | Wire Color |\n|--------------|---------------|-----|------------|\n| GPIO 4 | DHT22 | Data | Yellow |\n| 3.3V | DHT22 | VCC | Red |\n| GND | DHT22 | GND | Black |\n| GPIO 21 | OLED | SDA | Green |\n| GPIO 22 | OLED | SCL | Blue |\n\n---\n\n"

/-- `_generate_troubleshooting_section`. -/
def _generate_troubleshooting_section : String :=
  "\n## 5. Testing & Troubleshooting\n\n### Common Issues\n\n| Problem | Possible Cause | Solution |\n|---------|---------------|----------|\n| No sensor readings | Loose connection | Check wiring |\n| Display blank | Power issue | Verify 3.3V supply |\n| Wrong values | Wrong config | Update code |\n\n### Troubleshooting Flowchart\n\n```mermaid\nflowchart TD\n    A[Issue Detected] --> B\x7bSystem Powers On?\x7d\n    B -->|No| C[Check Power Supply]\n    B -->|Yes| D\x7bSensor Reading?\x7d\n\n    C --> E[Verify Connections]\n    D -->|No| F[Check Wiring]\n    D -->|Yes| G\x7bDisplay Working?\x7d\n\n    F --> H[Verify Pin Configuration]\n    G -->|No| I[Check I2C]\n\n    style A fill:#ffcccc\n    style H fill:#e1ffe1\n    style I fill:#e1ffe1\n```\n\n---\n\n"

/-- `_generate_next_steps_section`. -/
def _generate_next_steps_section : String :=
  "\n## 6. Next Steps\n\n### Project Enhancements\n\n```mermaid\ntimeline\n    title Learning Path\n    section Current\n        Basic Implementation : Core functionality\n    section Next\n        Add WiFi : Cloud connectivity\n    section Future\n        Machine Learning : Advanced features\n```\n\n### Learning Resources\n\n- [Official Documentation](https://example.com)\n- [Community Forum](https://forum.example.com)\n- [Video Tutorials](https://youtube.com/example)\n\n---\n\n## Support\n\nNeed help? Join our community:\n- Discord: [Link]\n- GitHub: [Link]\n- Email: support@example.com\n\n---\n\n**Did you find this helpful?** [Rate Guide] | [Report Issue]\n"

/-- The six strings `_generate_code_section` appends for one code block:
the fenced block (`f"```{language}\n{code}\n```\n"`) followed by the static
annotation scaffolding.  Both dict keys are always present on the blocks
built by `_parse_input`, so `block.get("language", "cpp")` and
`block.get("code", "")` are the fields themselves. -/
def codeBlockParts : List CodeBlock → List String
  | [] => []
  | b :: bs =>
    ("```" ++ b.language ++ "\n" ++ b.code ++ "\n```\n")
      :: "**Code Annotations:**\n\n"
      :: "<details>\n"
      :: "<summary><strong>Line-by-Line Explanation</strong></summary>\n\n"
      :: "*Detailed explanations will be added here*\n\n"
      :: "</details>\n"
      :: codeBlockParts bs

/-- The `output` list built by `_generate_code_section` before the final
`'\n'.join`. -/
def codeSectionParts (code_blocks : List CodeBlock) : List String :=
  "## 4. Software Setup\n" :: "### Complete Firmware Code\n"
    :: (codeBlockParts code_blocks ++ ["---\n"])

/-- `_generate_code_section`. -/
def _generate_code_section (code_blocks : List CodeBlock) : String :=
  pyJoin "\n" (codeSectionParts code_blocks)

/-- A part that opens with a triple-backtick fence (the shape of the
fenced block emitted for a code entry). -/
def opensFence (s : String) : Bool :=
  pyStartsWith s "```"

/-- The `output` list built by `_generate_visual_structure` before the
final `'\n'.join`.  The `parsed` dict always carries the `"title"` key, so
`parsed.get('title', 'Project Documentation')` is `parsed.title`; the three
conditional appends mirror `if format_type == "iot"`, `if
parsed.get("components")` (non-empty-list truthiness) and `if
parsed.get("code_blocks")`. -/
def visualStructureParts (parsed : ParsedDocument) (format_type : String) : List String :=
  ["# " ++ parsed.title ++ "\n",
   "*Transform your technical content into beautiful documentation*\n",
   "---\n",
   _generate_quick_overview parsed,
   _generate_toc]
  ++ (if format_type = "iot" then [_generate_architecture_section] else [])
  ++ (if parsed.components ≠ [] then [_generate_components_section] else [])
  ++ (if format_type = "iot" then [_generate_circuit_section] else [])
  ++ (if parsed.code_blocks ≠ [] then [_generate_code_section parsed.code_blocks] else [])
  ++ [_generate_troubleshooting_section, _generate_next_steps_section]

/-- `_generate_visual_structure`. -/
def _generate_visual_structure (parsed : ParsedDocument) (format_type : String) : String :=
  pyJoin "\n" (visualStructureParts parsed format_type)

/-! ### Configuration and the agent (`__init__`, `transform`)

The configuration file's decoded JSON: the two optional top-level keys.
`line_height` is the JSON number `1.6`; it is stored here as its literal
text since no code ever reads it. -/

/-- Decoded configuration JSON: top-level keys `colors` and `typography`. -/
structure Config where
  colors : List (String × String) := []
  typography : List (String × String) := []
deriving DecidableEq

/-- `_default_config`. -/
def _default_config : Config :=
  { colors := [("primary", "#2196F3"), ("secondary", "#4CAF50"),
               ("accent", "#FF9800"), ("error", "#f44336"),
               ("neutral", "#607D8B")],
    typography := [("heading_font", "Inter, Roboto, system-ui"),
                   ("code_font", "Fira Code, JetBrains Mono"),
                   ("line_height", "1.6")] }

/-- `_load_config`: with a path the file's decoded JSON is returned (file
I/O itself is outside the model, so the argument is the decoded
configuration); without one, the defaults. -/
def _load_config : Option Config → Config
  | some cfg => cfg
  | none => _default_config

/-- The agent instance: `self.config`, `self.colors`, `self.typography`. -/
structure Agent where
  config : Config
  colors : List (String × String)
  typography : List (String × String)
deriving DecidableEq

/-- `VisualDocumentationAgent.__init__`: `self.config = self._load_config(
config_path)`, then the two `.get` projections (both keys are present on
the modelled `Config`). -/
def Agent.init (config_path : Option Config) : Agent :=
  let config := _load_config config_path
  ⟨config, config.colors, config.typography⟩

/-- `transform`: parse the input, then generate the visual structure.  The
instance state (`self`) is not consulted, exactly as in the source. -/
def Agent.transform (_self : Agent) (input_text : String) (format_type : String) : String :=
  _generate_visual_structure (_parse_input input_text) format_type

/-! ### The diagram emitter (`generate_diagram`) -/

/-- Enum `DiagramType` of the source. -/
inductive DiagramType where
  | FLOWCHART
  | SEQUENCE
  | CLASS
  | STATE
  | ER
  | NETWORK
  | TIMELINE
  | JOURNEY
deriving DecidableEq

/-- The enum's `value` strings. -/
def DiagramType.value : DiagramType → String
  | .FLOWCHART => "flowchart"
  | .SEQUENCE => "sequence"
  | .CLASS => "class"
  | .STATE => "state"
  | .ER => "er"
  | .NETWORK => "network"
  | .TIMELINE => "timeline"
  | .JOURNEY => "journey"

/-- A diagram element: the Python dict with the keys the strategies read.
`from_`/`to_` stand for the Python keys `"from"`/`"to"` (`from` is a Lean
keyword).  `label` is an `Option` because its `.get` default varies between
call sites; the other defaulted keys always default to the values given
here at every call site that uses `.get`. -/
structure DiagramElement where
  type : String := ""
  id : String := ""
  label : Option String := none
  style : String := ""
  from_ : String := ""
  to_ : String := ""
  name : String := ""
  description : String := ""
  attributes : List String := []
deriving DecidableEq

/-- The lines `_generate_flowchart` appends for one element: a node
declaration (plus a style line when `element.get("style", "")` is truthy),
or an edge arrow; other tags produce nothing. -/
def flowchartElementLines (e : DiagramElement) : List String :=
  if e.type == "node" then
    let label := e.label.getD ""
    ("    " ++ e.id ++ "[" ++ label ++ "]")
      :: (if e.style == "" then [] else ["    style " ++ e.id ++ " " ++ e.style])
  else if e.type == "edge" then
    ["    " ++ e.from_ ++ " --> " ++ e.to_]
  else []

/-- The flowchart loop over all elements. -/
def flowchartLines : List DiagramElement → List String
  | [] => []
  | e :: es => flowchartElementLines e ++ flowchartLines es

/-- `_generate_flowchart`. -/
def _generate_flowchart (elements : List DiagramElement) : String :=
  pyJoin "\n" (["```mermaid", "flowchart TD"] ++ flowchartLines elements ++ ["```"])

/-- First pass of `_generate_sequence_diagram`: participant declarations
(`element.get("label", element["id"])`). -/
def participantLines : List DiagramElement → List String
  | [] => []
  | e :: es =>
    (if e.type == "participant" then
      ["    participant " ++ e.id ++ " as " ++ e.label.getD e.id]
     else []) ++ participantLines es

/-- Second pass of `_generate_sequence_diagram`: message arrows. -/
def messageLines : List DiagramElement → List String
  | [] => []
  | e :: es =>
    (if e.type == "message" then
      ["    " ++ e.from_ ++ " ->> " ++ e.to_ ++ ": " ++ e.label.getD ""]
     else []) ++ messageLines es

/-- `_generate_sequence_diagram`. -/
def _generate_sequence_diagram (elements : List DiagramElement) : String :=
  pyJoin "\n" (["```mermaid", "sequenceDiagram"]
    ++ participantLines elements ++ messageLines elements ++ ["```"])

/-- The lines `_generate_class_diagram` appends for one element: the class
block opener, one line per attribute, and the closer. -/
def classElementLines (e : DiagramElement) : List String :=
  if e.type == "class" then
    ("    class " ++ e.name ++ " \x7b")
      :: (e.attributes.map (fun attr => "        " ++ attr)) ++ ["    \x7d"]
  else []

/-- The class-diagram loop over all elements. -/
def classLines : List DiagramElement → List String
  | [] => []
  | e :: es => classElementLines e ++ classLines es

/-- `_generate_class_diagram`. -/
def _generate_class_diagram (elements : List DiagramElement) : String :=
  pyJoin "\n" (["```mermaid", "classDiagram"] ++ classLines elements ++ ["```"])

/-- The timeline loop: `current_section` is assigned by `section` elements
and (as in the source) otherwise never read, since an `event` line uses
only the element's own `name`/`description`. -/
def timelineLines (cur : Option String) : List DiagramElement → List String
  | [] => []
  | e :: es =>
    if e.type == "section" then
      ("    section " ++ e.name) :: timelineLines (some e.name) es
    else if e.type == "event" then
      ("        " ++ e.name ++ " : " ++ e.description) :: timelineLines cur es
    else
      timelineLines cur es

/-- `_generate_timeline`. -/
def _generate_timeline (elements : List DiagramElement) : String :=
  pyJoin "\n" (["```mermaid", "timeline", "    title Project Roadmap"]
    ++ timelineLines none elements ++ ["```"])

/-- The lines `_generate_generic_diagram` appends for one element (like the
flowchart, without style support). -/
def genericElementLines (e : DiagramElement) : List String :=
  if e.type == "node" then
    ["    " ++ e.id ++ "[" ++ e.label.getD "" ++ "]"]
  else if e.type == "edge" then
    ["    " ++ e.from_ ++ " --> " ++ e.to_]
  else []

/-- The generic-diagram loop over all elements. -/
def genericLines : List DiagramElement → List String
  | [] => []
  | e :: es => genericElementLines e ++ genericLines es

/-- `_generate_generic_diagram`. -/
def _generate_generic_diagram (diagram_type : DiagramType) (elements : List DiagramElement) : String :=
  pyJoin "\n" (["```mermaid", diagram_type.value ++ " TD"] ++ genericLines elements ++ ["```"])

/-- `generate_diagram`: the strategy dispatch. -/
def generate_diagram (diagram_type : DiagramType) (elements : List DiagramElement) : String :=
  if diagram_type = .FLOWCHART then _generate_flowchart elements
  else if diagram_type = .SEQUENCE then _generate_sequence_diagram elements
  else if diagram_type = .CLASS then _generate_class_diagram elements
  else if diagram_type = .TIMELINE then _generate_timeline elements
  else _generate_generic_diagram diagram_type elements

/-- The element tags a kind's strategy recognizes (the guards of the
strategy's `if`/`elif` chain); every other tag falls through silently. -/
def handledTags : DiagramType → List String
  | .FLOWCHART => ["node", "edge"]
  | .SEQUENCE => ["participant", "message"]
  | .CLASS => ["class"]
  | .TIMELINE => ["section", "event"]
  | _ => ["node", "edge"]

/-! ### Specification-side description of code-block extraction

`specBlocks` restates what `_parse_input` stores in `code_blocks`, directly
as a scan over the line list: a fence line met outside a code block opens a
block; its content is the newline-join of the following lines up to the
first terminator (a further fence line, which closes the block, or a
section-keyword line, which leaves the code state), where lines consumed by
the higher-priority title rule are excluded.  The refinement theorem below
proves `_parse_input` agrees with it on every input. -/

/-- Split the lines after an opening fence into the block's body and the
remaining unconsumed lines.  Title lines are consumed by rule 1 (excluded
from the body, scanning continues); a section-keyword line or a fence line
terminates the body. -/
def splitCodeBody : List String → List String × List String
  | [] => ([], [])
  | l :: ls =>
    if isTitleLine l then splitCodeBody ls
    else if isSectionMarker l then ([], ls)
    else if isFenceLine l then ([], ls)
    else
      let p := splitCodeBody ls
      (l :: p.1, p.2)

/-- The code blocks of the input, described scan-style (see above). -/
def specBlocks : List String → List CodeBlock
  | [] => []
  | l :: ls =>
    if isTitleLine l then specBlocks ls
    else if isSectionMarker l then specBlocks ls
    else if isFenceLine l then
      ⟨fenceLanguage l, pyJoin "\n" (splitCodeBody ls).1⟩ :: specBlocks (splitCodeBody ls).2
    else specBlocks ls
termination_by ls => ls.length
decreasing_by
  all_goals simp only [List.length_cons]
  · omega
  · omega
  · have hsl : ∀ t : List String, (splitCodeBody t).2.length ≤ t.length := by
      intro t
      induction t with
      | nil => simp [splitCodeBody]
      | cons a t ihh =>
        simp only [splitCodeBody]
        split
        · exact Nat.le_succ_of_le ihh
        · split
          · simp
          · split
            · simp
            · simpa using Nat.le_succ_of_le ihh
    exact Nat.lt_succ_of_le (hsl ls)
  · omega

/-! ### Step lemmas for the classifier -/

theorem runLines_nil (st : ParseState) : runLines st [] = st := rfl

theorem runLines_cons (st : ParseState) (l : String) (ls : List String) :
    runLines st (l :: ls) = runLines (parseLine st l) ls := rfl

theorem parseLine_title (st : ParseState) (l : String)
    (h : isTitleLine l = true) :
    parseLine st l = { st with doc := { st.doc with title := pyStrip (pyDrop 2 l) } } := by
  simp [parseLine, h]

theorem parseLine_components (st : ParseState) (l : String)
    (h1 : isTitleLine l = false) (h2 : isComponentsMarker l = true) :
    parseLine st l = { st with current_section := some "components" } := by
  simp [parseLine, h1, h2]

theorem parseLine_connections (st : ParseState) (l : String)
    (h1 : isTitleLine l = false) (h2 : isComponentsMarker l = false)
    (h3 : isConnectionsMarker l = true) :
    parseLine st l = { st with current_section := some "connections" } := by
  simp [parseLine, h1, h2, h3]

theorem parseLine_open (st : ParseState) (l : String)
    (h1 : isTitleLine l = false) (h2 : isComponentsMarker l = false)
    (h3 : isConnectionsMarker l = false) (h4 : isFenceLine l = true)
    (h5 : st.current_section ≠ some "code") :
    parseLine st l =
      { st with
        current_section := some "code"
        code_buffer := []
        doc := { st.doc with
          code_blocks := st.doc.code_blocks ++ [⟨fenceLanguage l, ""⟩] } } := by
  simp [parseLine, h1, h2, h3, h4, h5]

theorem parseLine_close (st : ParseState) (l : String)
    (h1 : isTitleLine l = false) (h2 : isComponentsMarker l = false)
    (h3 : isConnectionsMarker l = false) (h4 : isFenceLine l = true)
    (h5 : st.current_section = some "code") :
    parseLine st l = { st with current_section := none } := by
  simp [parseLine, h1, h2, h3, h4, h5]

theorem parseLine_code (st : ParseState) (l : String)
    (h1 : isTitleLine l = false) (h2 : isComponentsMarker l = false)
    (h3 : isConnectionsMarker l = false) (h4 : isFenceLine l = false)
    (h5 : st.current_section = some "code") :
    parseLine st l =
      { st with
        code_buffer := st.code_buffer ++ [l]
        doc := { st.doc with
          code_blocks :=
            if st.doc.code_blocks = [] then st.doc.code_blocks
            else setLastCode (pyJoin "\n" (st.code_buffer ++ [l])) st.doc.code_blocks } } := by
  simp [parseLine, h1, h2, h3, h4, h5]

theorem parseLine_skip (st : ParseState) (l : String)
    (h1 : isTitleLine l = false) (h2 : isComponentsMarker l = false)
    (h3 : isConnectionsMarker l = false) (h4 : isFenceLine l = false)
    (h5 : st.current_section ≠ some "code") :
    parseLine st l = st := by
  simp [parseLine, h1, h2, h3, h4, h5]

theorem setLastCode_append_singleton (c : String) (bs : List CodeBlock) (b : CodeBlock) :
    setLastCode c (bs ++ [b]) = bs ++ [{ b with code := c }] := by
  induction bs with
  | nil => rfl
  | cons x xs ih =>
    cases xs with
    | nil => simp [setLastCode]
    | cons y ys => simpa [setLastCode] using ih

theorem specBlocks_nil : specBlocks [] = [] := by
  rw [specBlocks.eq_def]

theorem specBlocks_cons_title (l : String) (ls : List String)
    (h : isTitleLine l = true) : specBlocks (l :: ls) = specBlocks ls := by
  rw [specBlocks.eq_def]
  simp [h]

theorem specBlocks_cons_marker (l : String) (ls : List String)
    (h1 : isTitleLine l = false) (h2 : isSectionMarker l = true) :
    specBlocks (l :: ls) = specBlocks ls := by
  rw [specBlocks.eq_def]
  simp [h1, h2]

theorem specBlocks_cons_fence (l : String) (ls : List String)
    (h1 : isTitleLine l = false) (h2 : isSectionMarker l = false)
    (h3 : isFenceLine l = true) :
    specBlocks (l :: ls)
      = ⟨fenceLanguage l, pyJoin "\n" (splitCodeBody ls).1⟩
          :: specBlocks (splitCodeBody ls).2 := by
  rw [specBlocks.eq_def]
  simp [h1, h2, h3]

theorem specBlocks_cons_skip (l : String) (ls : List String)
    (h1 : isTitleLine l = false) (h2 : isSectionMarker l = false)
    (h3 : isFenceLine l = false) :
    specBlocks (l :: ls) = specBlocks ls := by
  rw [specBlocks.eq_def]
  simp [h1, h2, h3]

theorem splitCodeBody_cons_title (l : String) (ls : List String)
    (h : isTitleLine l = true) : splitCodeBody (l :: ls) = splitCodeBody ls := by
  simp [splitCodeBody, h]

theorem splitCodeBody_cons_marker (l : String) (ls : List String)
    (h1 : isTitleLine l = false) (h2 : isSectionMarker l = true) :
    splitCodeBody (l :: ls) = ([], ls) := by
  simp [splitCodeBody, h1, h2]

theorem splitCodeBody_cons_fence (l : String) (ls : List String)
    (h1 : isTitleLine l = false) (h2 : isSectionMarker l = false)
    (h3 : isFenceLine l = true) :
    splitCodeBody (l :: ls) = ([], ls) := by
  simp [splitCodeBody, h1, h2, h3]

theorem splitCodeBody_cons_plain (l : String) (ls : List String)
    (h1 : isTitleLine l = false) (h2 : isSectionMarker l = false)
    (h3 : isFenceLine l = false) :
    splitCodeBody (l :: ls)
      = (l :: (splitCodeBody ls).1, (splitCodeBody ls).2) := by
  simp [splitCodeBody, h1, h2, h3]

/-- The central refinement invariant for the extraction loop.  Outside a
code block, the blocks still to be produced are exactly `specBlocks` of the
remaining lines; inside one, the open block (the last of the accumulated
list, whose stored code is the join of the buffer) is completed by
`splitCodeBody` of the remaining lines, and scanning resumes on the rest. -/
theorem runLines_spec (ls : List String) :
    ∀ st : ParseState,
      (st.current_section ≠ some "code" →
        (runLines st ls).doc.code_blocks = st.doc.code_blocks ++ specBlocks ls)
      ∧ (∀ B b, st.current_section = some "code" →
          st.doc.code_blocks = B ++ [b] →
          b.code = pyJoin "\n" st.code_buffer →
          (runLines st ls).doc.code_blocks
            = B ++ [{ b with code := pyJoin "\n" (st.code_buffer ++ (splitCodeBody ls).1) }]
              ++ specBlocks (splitCodeBody ls).2) := by
  induction ls with
  | nil =>
    intro st
    refine ⟨fun _ => by simp [runLines_nil, specBlocks_nil], ?_⟩
    rintro B ⟨lang, code⟩ hsec hblocks hcode
    simp only [runLines_nil, splitCodeBody, List.append_nil, specBlocks_nil]
    rw [hblocks, ← hcode]
  | cons l ls ih =>
    intro st
    by_cases hT : isTitleLine l = true
    · constructor
      · intro hout
        rw [runLines_cons, parseLine_title st l hT,
          specBlocks_cons_title l ls hT]
        exact (ih _).1 hout
      · rintro B b hsec hblocks hcode
        rw [runLines_cons, parseLine_title st l hT,
          splitCodeBody_cons_title l ls hT]
        exact (ih _).2 B b hsec hblocks hcode
    · have hT' : isTitleLine l = false := by simpa using hT
      by_cases hC : isComponentsMarker l = true
      · have hM : isSectionMarker l = true := by simp [isSectionMarker, hC]
        constructor
        · intro hout
          rw [runLines_cons, parseLine_components st l hT' hC,
            specBlocks_cons_marker l ls hT' hM]
          exact (ih _).1 (by simp)
        · rintro B ⟨lang, code⟩ hsec hblocks hcode
          rw [runLines_cons, parseLine_components st l hT' hC,
            splitCodeBody_cons_marker l ls hT' hM]
          have h := (ih { st with current_section := some "components" }).1 (by simp)
          have hcode' : code = pyJoin "\n" st.code_buffer := hcode
          simp only [List.append_nil]
          rw [← hcode', ← hblocks]
          exact h
      · have hC' : isComponentsMarker l = false := by simpa using hC
        by_cases hW : isConnectionsMarker l = true
        · have hM : isSectionMarker l = true := by simp [isSectionMarker, hW]
          constructor
          · intro hout
            rw [runLines_cons, parseLine_connections st l hT' hC' hW,
              specBlocks_cons_marker l ls hT' hM]
            exact (ih _).1 (by simp)
          · rintro B ⟨lang, code⟩ hsec hblocks hcode
            rw [runLines_cons, parseLine_connections st l hT' hC' hW,
              splitCodeBody_cons_marker l ls hT' hM]
            have h := (ih { st with current_section := some "connections" }).1 (by simp)
            have hcode' : code = pyJoin "\n" st.code_buffer := hcode
            simp only [List.append_nil]
            rw [← hcode', ← hblocks]
            exact h
        · have hW' : isConnectionsMarker l = false := by simpa using hW
          have hM' : isSectionMarker l = false := by
            simp [isSectionMarker, hC', hW']
          by_cases hF : isFenceLine l = true
          · constructor
            · intro hout
              rw [runLines_cons, parseLine_open st l hT' hC' hW' hF hout,
                specBlocks_cons_fence l ls hT' hM' hF]
              have h := (ih
                { st with
                  current_section := some "code"
                  code_buffer := []
                  doc := { st.doc with
                    code_blocks := st.doc.code_blocks ++ [⟨fenceLanguage l, ""⟩] } }).2
                st.doc.code_blocks ⟨fenceLanguage l, ""⟩ rfl rfl rfl
              simpa [List.append_assoc] using h
            · rintro B ⟨lang, code⟩ hsec hblocks hcode
              rw [runLines_cons, parseLine_close st l hT' hC' hW' hF hsec,
                splitCodeBody_cons_fence l ls hT' hM' hF]
              have h := (ih { st with current_section := none }).1 (by simp)
              have hcode' : code = pyJoin "\n" st.code_buffer := hcode
              simp only [List.append_nil]
              rw [← hcode', ← hblocks]
              exact h
          · have hF' : isFenceLine l = false := by simpa using hF
            constructor
            · intro hout
              rw [runLines_cons, parseLine_skip st l hT' hC' hW' hF' hout,
                specBlocks_cons_skip l ls hT' hM' hF']
              exact (ih _).1 hout
            · rintro B ⟨lang, code⟩ hsec hblocks hcode
              rw [runLines_cons, parseLine_code st l hT' hC' hW' hF' hsec,
                splitCodeBody_cons_plain l ls hT' hM' hF']
              have h := (ih
                { st with
                  code_buffer := st.code_buffer ++ [l]
                  doc := { st.doc with
                    code_blocks :=
                      if st.doc.code_blocks = [] then st.doc.code_blocks
                      else setLastCode (pyJoin "\n" (st.code_buffer ++ [l]))
                        st.doc.code_blocks } }).2
                B ⟨lang, pyJoin "\n" (st.code_buffer ++ [l])⟩
                hsec
                (by simp [hblocks, setLastCode_append_singleton])
                rfl
              simpa [List.append_assoc] using h

/-! ### Title tracking, the in-code invariant, and unterminated fences -/

theorem setLastCode_ne_nil (c : String) (bs : List CodeBlock) (h : bs ≠ []) :
    setLastCode c bs ≠ [] := by
  cases bs with
  | nil => exact absurd rfl h
  | cons b bs => cases bs <;> simp [setLastCode]

/-- Every rule except rule 1 leaves the recorded title unchanged. -/
theorem parseLine_title_keep (st : ParseState) (l : String)
    (h : isTitleLine l = false) :
    (parseLine st l).doc.title = st.doc.title := by
  by_cases hC : isComponentsMarker l = true
  · rw [parseLine_components st l h hC]
  · have hC' : isComponentsMarker l = false := by simpa using hC
    by_cases hW : isConnectionsMarker l = true
    · rw [parseLine_connections st l h hC' hW]
    · have hW' : isConnectionsMarker l = false := by simpa using hW
      by_cases hF : isFenceLine l = true
      · by_cases hS : st.current_section = some "code"
        · rw [parseLine_close st l h hC' hW' hF hS]
        · rw [parseLine_open st l h hC' hW' hF hS]
      · have hF' : isFenceLine l = false := by simpa using hF
        by_cases hS : st.current_section = some "code"
        · rw [parseLine_code st l h hC' hW' hF' hS]
        · rw [parseLine_skip st l h hC' hW' hF' hS]

theorem getLast?_cons_eq {α : Type} (a : α) (l : List α) :
    (a :: l).getLast? = some (l.getLast?.getD a) := by
  induction l generalizing a with
  | nil => rfl
  | cons b l ih => rw [List.getLast?_cons_cons, ih b]; rfl

/-- The title after the whole loop is the last title line's payload (the
most recent assignment wins), or the starting title if no line matched
rule 1. -/
theorem runLines_title (ls : List String) :
    ∀ st : ParseState,
      (runLines st ls).doc.title
        = (((ls.filter isTitleLine).getLast?.map
            (fun t => pyStrip (pyDrop 2 t))).getD st.doc.title) := by
  induction ls with
  | nil => intro st; simp [runLines_nil]
  | cons l ls ih =>
    intro st
    rw [runLines_cons, ih (parseLine st l)]
    by_cases hT : isTitleLine l = true
    · rw [List.filter_cons_of_pos hT, getLast?_cons_eq]
      have htitle : (parseLine st l).doc.title = pyStrip (pyDrop 2 l) := by
        rw [parseLine_title st l hT]
      rw [htitle]
      cases hL : (ls.filter isTitleLine).getLast? <;> simp
    · have hT' : isTitleLine l = false := by simpa using hT
      rw [List.filter_cons_of_neg (by simp [hT']), parseLine_title_keep st l hT']

/-- Rule preservation of the in-code invariant: whenever the section state
is `code`, the accumulated `code_blocks` list is non-empty. -/
theorem parseLine_inv (st : ParseState) (l : String)
    (h : st.current_section = some "code" → st.doc.code_blocks ≠ []) :
    (parseLine st l).current_section = some "code" →
      (parseLine st l).doc.code_blocks ≠ [] := by
  by_cases hT : isTitleLine l = true
  · rw [parseLine_title st l hT]; exact h
  · have hT' : isTitleLine l = false := by simpa using hT
    by_cases hC : isComponentsMarker l = true
    · rw [parseLine_components st l hT' hC]
      intro hh; simp at hh
    · have hC' : isComponentsMarker l = false := by simpa using hC
      by_cases hW : isConnectionsMarker l = true
      · rw [parseLine_connections st l hT' hC' hW]
        intro hh; simp at hh
      · have hW' : isConnectionsMarker l = false := by simpa using hW
        by_cases hF : isFenceLine l = true
        · by_cases hS : st.current_section = some "code"
          · rw [parseLine_close st l hT' hC' hW' hF hS]
            intro hh; simp at hh
          · rw [parseLine_open st l hT' hC' hW' hF hS]
            intro _; simp
        · have hF' : isFenceLine l = false := by simpa using hF
          by_cases hS : st.current_section = some "code"
          · rw [parseLine_code st l hT' hC' hW' hF' hS]
            intro _
            have hb := h hS
            simp only [if_neg hb]
            exact setLastCode_ne_nil _ _ hb
          · rw [parseLine_skip st l hT' hC' hW' hF' hS]
            exact h

theorem runLines_inv (ls : List String) :
    ∀ st : ParseState,
      (st.current_section = some "code" → st.doc.code_blocks ≠ []) →
      ((runLines st ls).current_section = some "code" →
        (runLines st ls).doc.code_blocks ≠ []) := by
  induction ls with
  | nil => intro st h; simpa [runLines_nil] using h
  | cons l ls ih =>
    intro st h
    rw [runLines_cons]
    exact ih (parseLine st l) (parseLine_inv st l h)

/-- When no remaining line is a section keyword or a fence, the body of the
open code block runs to the end of input, excluding title lines. -/
theorem splitCodeBody_all_plain (ls : List String)
    (h : ∀ l ∈ ls, isSectionMarker l = false ∧ isFenceLine l = false) :
    splitCodeBody ls = (ls.filter (fun l => !isTitleLine l), []) := by
  induction ls with
  | nil => simp [splitCodeBody]
  | cons l ls ih =>
    obtain ⟨hM, hF⟩ := h l (by simp)
    have ih' := ih (fun x hx => h x (by simp [hx]))
    by_cases hT : isTitleLine l = true
    · rw [splitCodeBody_cons_title l ls hT, ih']
      simp [hT]
    · have hT' : isTitleLine l = false := by simpa using hT
      rw [splitCodeBody_cons_plain l ls hT' hM hF, ih']
      simp [hT']

/-! ### Claims about the extractor -/

/-- Claim C2, amended.  As stated the claim is false (see the
counterexample: a line between fences that matches a higher-priority rule,
such as a title line, is not stored in the block's code).  Amended form:
`code_blocks` lists the blocks in the order their opening fences appear
(a fence line being "opening" when scanned outside code state), and each
block's code is the newline-join of exactly those lines strictly between
its opening fence and its terminator — the next fence line, a
section-keyword line (which also ends the block early), or end of input —
excluding lines consumed by the higher-priority title rule.  This is the
content of `specBlocks`, proved here to coincide with the extractor on
every input. -/
theorem claim_C2 (input_text : String) :
    (_parse_input input_text).code_blocks = specBlocks (pyLines input_text) := by
  have h := (runLines_spec (pyLines input_text) initState).1 (by simp [initState])
  simpa [_parse_input, initState] using h

/-- Claim C2 counterexample: in the input `"```python\n# x\n```"` the sole
line strictly between the fences is `"# x"`, but the stored code is `""`
(the title rule consumes the line first), not `"# x"`. -/
theorem claim_C2_counterexample :
    (_parse_input "```python\n# x\n```").code_blocks = [⟨"python", ""⟩]
    ∧ (_parse_input "```python\n# x\n```").code_blocks ≠ [⟨"python", "# x"⟩] := by
  decide

/-- Claim C4: the recorded title is the trimmed remainder (after the
`"# "` marker) of the last title line of the input — later title lines
overwrite earlier ones. -/
theorem claim_C4 (input_text t : String)
    (h : ((pyLines input_text).filter isTitleLine).getLast? = some t) :
    (_parse_input input_text).title = pyStrip (pyDrop 2 t) := by
  simp only [_parse_input]
  rw [runLines_title (pyLines input_text) initState, h]
  rfl

/-- Claim C4 witness: on `"# a\n# b  "` the last title line is `"# b  "`
and the extracted title is its trimmed remainder (`"b"`). -/
theorem claim_C4_witness :
    ((pyLines "# a\n# b  ").filter isTitleLine).getLast? = some "# b  "
    ∧ (_parse_input "# a\n# b  ").title = pyStrip (pyDrop 2 "# b  ")
    ∧ pyStrip (pyDrop 2 "# b  ") = "b" :=
  ⟨by decide, claim_C4 "# a\n# b  " "# b  " (by decide), by decide⟩

/-- Running the loop over concatenated line lists is running it in two
stages. -/
theorem runLines_append (xs ys : List String) :
    ∀ st : ParseState, runLines st (xs ++ ys) = runLines (runLines st xs) ys := by
  induction xs with
  | nil => intro st; rfl
  | cons x xs ih =>
    intro st
    simp only [List.cons_append, runLines_cons]
    exact ih (parseLine st x)

/-- Claim C5, amended.  The concrete half of the claim holds verbatim
(first conjunct); the general clause is amended to exclude lines consumed
by the higher-priority rules: whenever a fence line opens a block — the
scanner is not already in code state after the preceding lines, wherever
in the input the fence occurs and whatever blocks came before — and no
later line matches a section-keyword or fence rule (so that fence is never
terminated), the last code block's content is the newline-join of all the
lines after that opening fence except title lines (which the title rule
consumes). -/
theorem claim_C5 :
    ((_parse_input "```js\nconsole.log(1)").code_blocks = [⟨"js", "console.log(1)"⟩])
    ∧ ∀ (input_text fence_line : String) (pre body : List String),
        pyLines input_text = pre ++ fence_line :: body →
        (runLines initState pre).current_section ≠ some "code" →
        isTitleLine fence_line = false →
        isSectionMarker fence_line = false →
        isFenceLine fence_line = true →
        (∀ l ∈ body, isSectionMarker l = false ∧ isFenceLine l = false) →
        (_parse_input input_text).code_blocks.getLast?
          = some ⟨fenceLanguage fence_line,
              pyJoin "\n" (body.filter (fun l => !isTitleLine l))⟩ := by
  refine ⟨by decide, ?_⟩
  intro input_text fence_line pre body hsplit hpre hT hM hF hbody
  have h := (runLines_spec (fence_line :: body) (runLines initState pre)).1 hpre
  rw [specBlocks_cons_fence fence_line body hT hM hF,
    splitCodeBody_all_plain body hbody] at h
  simp only [specBlocks_nil] at h
  have hrun : (_parse_input input_text).code_blocks
      = (runLines initState pre).doc.code_blocks
        ++ [⟨fenceLanguage fence_line,
            pyJoin "\n" (body.filter (fun l => !isTitleLine l))⟩] := by
    simp only [_parse_input, hsplit, runLines_append]
    simpa using h
  rw [hrun, List.getLast?_concat]

/-- Claim C5 witness: the general clause applied to an input where a
closed block and a plain line precede the unterminated fence — the last
block of `"intro\n```c\nx\n```\n```js\nfoo"` is tagged `"js"` with code
`"foo"`. -/
theorem claim_C5_witness :
    (_parse_input "intro\n```c\nx\n```\n```js\nfoo").code_blocks.getLast?
      = some ⟨"js", "foo"⟩ := by
  have h := claim_C5.2 "intro\n```c\nx\n```\n```js\nfoo" "```js"
    ["intro", "```c", "x", "```"] ["foo"]
    (by decide) (by decide) (by decide) (by decide) (by decide) (by decide)
  exact h.trans (by decide)

/-- Claim C5 counterexample (to the unrestricted general clause): after the
unterminated fence in `"```js\n# x"`, the remaining input is `"# x"`, yet
the block's content is `""`, not everything through end of input. -/
theorem claim_C5_counterexample :
    (_parse_input "```js\n# x").code_blocks = [⟨"js", ""⟩]
    ∧ (_parse_input "```js\n# x").code_blocks ≠ [⟨"js", "# x"⟩] := by
  decide

/-- Claim C10: after any number of extraction steps on any input, if the
section state is `code` then `code_blocks` is non-empty, so the
`if parsed["code_blocks"]` guard before updating the last block can never
be false and the update is well defined. -/
theorem claim_C10 (input_text : String) (k : Nat)
    (h : (runLines initState ((pyLines input_text).take k)).current_section = some "code") :
    (runLines initState ((pyLines input_text).take k)).doc.code_blocks ≠ [] :=
  runLines_inv ((pyLines input_text).take k) initState
    (fun hh => absurd hh (by simp [initState])) h

/-- Claim C10 witness: after one step on `"```c\nx"` the state is `code`
and one block has been allocated. -/
theorem claim_C10_witness :
    (runLines initState ((pyLines "```c\nx").take 1)).current_section = some "code"
    ∧ (runLines initState ((pyLines "```c\nx").take 1)).doc.code_blocks ≠ [] :=
  ⟨by decide, claim_C10 "```c\nx" 1 (by decide)⟩

/-! ### Renderer block identities -/

theorem str_data_append (s t : String) : (s ++ t).data = s.data ++ t.data := by
  cases s; cases t; rfl

/-- The quick-overview block ignores its `parsed` argument. -/
theorem quick_overview_const (parsed : ParsedDocument) :
    _generate_quick_overview parsed = _generate_quick_overview {} := rfl

/-- The hero/title part starts with `'#'` then a space. -/
theorem title_part_take2 (t : String) :
    ("# " ++ t ++ "\n").data.take 2 = ['#', ' '] := by
  cases t; rfl

/-- Every generated code section starts with two `'#'` characters. -/
theorem codeSection_take2 (bs : List CodeBlock) :
    (_generate_code_section bs).data.take 2 = ['#', '#'] := by
  have h : _generate_code_section bs
      = "## 4. Software Setup\n" ++ "\n"
        ++ pyJoin "\n" ("### Complete Firmware Code\n" :: (codeBlockParts bs ++ ["---\n"])) := rfl
  rw [h, str_data_append, str_data_append]
  rfl

theorem ne_title_part_of_take2 (s t : String)
    (h : s.data.take 2 ≠ ['#', ' ']) : s ≠ "# " ++ t ++ "\n" :=
  fun he => h (by rw [he, title_part_take2])

theorem ne_codeSection_of_take2 (s : String) (bs : List CodeBlock)
    (h : s.data.take 2 ≠ ['#', '#']) : s ≠ _generate_code_section bs :=
  fun he => h (by rw [he, codeSection_take2])

/-- Exactly which blocks `_generate_visual_structure` emits, as a
membership characterization over the `output` list. -/
theorem mem_visualStructureParts (s : String) (parsed : ParsedDocument) (fmt : String) :
    s ∈ visualStructureParts parsed fmt ↔
      s = "# " ++ parsed.title ++ "\n"
      ∨ s = "*Transform your technical content into beautiful documentation*\n"
      ∨ s = "---\n"
      ∨ s = _generate_quick_overview parsed
      ∨ s = _generate_toc
      ∨ (fmt = "iot" ∧ s = _generate_architecture_section)
      ∨ (parsed.components ≠ [] ∧ s = _generate_components_section)
      ∨ (fmt = "iot" ∧ s = _generate_circuit_section)
      ∨ (parsed.code_blocks ≠ [] ∧ s = _generate_code_section parsed.code_blocks)
      ∨ s = _generate_troubleshooting_section
      ∨ s = _generate_next_steps_section := by
  simp only [visualStructureParts]
  by_cases h1 : fmt = "iot" <;> by_cases h2 : parsed.components = [] <;>
    by_cases h3 : parsed.code_blocks = [] <;>
      simp [h1, h2, h3]

/-- A rendered fence (`f"```{language}\n{code}\n```\n"`) starts with three
backticks, whatever the block's fields are. -/
theorem opensFence_fence (lang code : String) :
    opensFence ("```" ++ lang ++ "\n" ++ code ++ "\n```\n") = true := by
  unfold opensFence pyStartsWith
  rw [List.isPrefixOf_iff_prefix, str_data_append, str_data_append,
    str_data_append, str_data_append]
  exact (((List.prefix_append _ _).trans (List.prefix_append _ _)).trans
    (List.prefix_append _ _)).trans (List.prefix_append _ _)

/-- Filtering the emitted code-section body for fence-opening parts
recovers exactly one fence per code block, in input order. -/
theorem filter_codeBlockParts (bs : List CodeBlock) :
    (codeBlockParts bs).filter opensFence
      = bs.map (fun b => "```" ++ b.language ++ "\n" ++ b.code ++ "\n```\n") := by
  induction bs with
  | nil => rfl
  | cons b bs ih =>
    simp only [codeBlockParts]
    rw [List.filter_cons_of_pos (opensFence_fence b.language b.code),
      List.filter_cons_of_neg (by decide),
      List.filter_cons_of_neg (by decide),
      List.filter_cons_of_neg (by decide),
      List.filter_cons_of_neg (by decide),
      List.filter_cons_of_neg (by decide),
      ih, List.map_cons]

/-! ### Claims about the renderer -/

/-- Claim C1, amended.  As stated the claim is false: the renderer emits
the components gallery only behind the truthiness check
`if parsed.get("components")`, so for a document with an empty `components`
list (every document the extractor actually produces) the gallery is
absent.  Amended form: the components-gallery block is emitted iff
`doc.components` is non-empty; its content is the static example table
either way, and this gating is independent of the profile. -/
theorem claim_C1 (parsed : ParsedDocument) (fmt : String) :
    _generate_components_section ∈ visualStructureParts parsed fmt
      ↔ parsed.components ≠ [] := by
  rw [mem_visualStructureParts]
  constructor
  · rintro (h|h|h|h|h|⟨hf,h⟩|⟨hc,h⟩|⟨hf,h⟩|⟨hc,h⟩|h|h)
    · exact absurd h (ne_title_part_of_take2 _ _ (by decide))
    · exact absurd h (by decide)
    · exact absurd h (by decide)
    · exact absurd h (by rw [quick_overview_const]; decide)
    · exact absurd h (by decide)
    · exact absurd h (by decide)
    · exact hc
    · exact absurd h (by decide)
    · exact absurd h (ne_codeSection_of_take2 _ _ (by decide))
    · exact absurd h (by decide)
    · exact absurd h (by decide)
  · intro h
    exact Or.inr (Or.inr (Or.inr (Or.inr (Or.inr (Or.inr (Or.inl ⟨h, rfl⟩))))))

/-- Claim C1 counterexample: rendering the document extracted from the
empty input (whose `components` list is empty, as for every extracted
document) on the `iot` profile does not emit the components-gallery block,
contradicting "emitted regardless of whether doc.components is empty". -/
theorem claim_C1_counterexample :
    _generate_components_section ∉ visualStructureParts (_parse_input "") "iot" := by
  decide

/-- Claim C3: extraction of the single python-tagged fenced block is exact;
the code section emits, for each code block in order, exactly one fenced
block tagged with the entry's language and containing its code verbatim —
the fence-opening entries of the emitted part list are precisely the
blocks' fences, in input order, nothing duplicated or reordered; and the
`iot` render includes that code section whenever blocks exist. -/
theorem claim_C3 :
    (_parse_input "```python\na=1\nb=2\n```").code_blocks = [⟨"python", "a=1\nb=2"⟩]
    ∧ (∀ bs : List CodeBlock,
        (codeSectionParts bs).filter opensFence
          = bs.map (fun b => "```" ++ b.language ++ "\n" ++ b.code ++ "\n```\n"))
    ∧ (∀ parsed : ParsedDocument, parsed.code_blocks ≠ [] →
        _generate_code_section parsed.code_blocks ∈ visualStructureParts parsed "iot") := by
  refine ⟨by decide, fun bs => ?_, fun parsed h => ?_⟩
  · simp only [codeSectionParts]
    rw [List.filter_cons_of_neg (by decide), List.filter_cons_of_neg (by decide),
      List.filter_append, filter_codeBlockParts]
    have h : (["---\n"].filter opensFence) = [] := by decide
    rw [h, List.append_nil]
  · rw [mem_visualStructureParts]
    exact Or.inr (Or.inr (Or.inr (Or.inr (Or.inr (Or.inr (Or.inr (Or.inr
      (Or.inl ⟨h, rfl⟩))))))))

/-- Claim C3 witness: the code section of the single extracted python
block is among the rendered parts of the `iot` profile. -/
theorem claim_C3_witness :
    _generate_code_section [⟨"python", "a=1\nb=2"⟩]
      ∈ visualStructureParts { code_blocks := [⟨"python", "a=1\nb=2"⟩] } "iot" :=
  claim_C3.2.2 { code_blocks := [⟨"python", "a=1\nb=2"⟩] } (by decide)

/-- Claim C6: the iot profile emits the architecture and circuit blocks,
the tutorial profile emits neither, and any other block is present in one
profile's output iff it is present in the other's. -/
theorem claim_C6 (parsed : ParsedDocument) :
    (_generate_architecture_section ∈ visualStructureParts parsed "iot"
      ∧ _generate_circuit_section ∈ visualStructureParts parsed "iot")
    ∧ (_generate_architecture_section ∉ visualStructureParts parsed "tutorial"
      ∧ _generate_circuit_section ∉ visualStructureParts parsed "tutorial")
    ∧ (∀ b : String,
        b ≠ _generate_architecture_section →
        b ≠ _generate_circuit_section →
        (b ∈ visualStructureParts parsed "iot"
          ↔ b ∈ visualStructureParts parsed "tutorial")) := by
  refine ⟨⟨?_, ?_⟩, ⟨?_, ?_⟩, ?_⟩
  · rw [mem_visualStructureParts]
    exact Or.inr (Or.inr (Or.inr (Or.inr (Or.inr (Or.inl ⟨rfl, rfl⟩)))))
  · rw [mem_visualStructureParts]
    exact Or.inr (Or.inr (Or.inr (Or.inr (Or.inr (Or.inr (Or.inr (Or.inl ⟨rfl, rfl⟩)))))))
  · rw [mem_visualStructureParts]
    rintro (h|h|h|h|h|⟨hf,h⟩|⟨hc,h⟩|⟨hf,h⟩|⟨hc,h⟩|h|h)
    · exact absurd h (ne_title_part_of_take2 _ _ (by decide))
    · exact absurd h (by decide)
    · exact absurd h (by decide)
    · exact absurd h (by rw [quick_overview_const]; decide)
    · exact absurd h (by decide)
    · exact absurd hf (by decide)
    · exact absurd h (by decide)
    · exact absurd hf (by decide)
    · exact absurd h (ne_codeSection_of_take2 _ _ (by decide))
    · exact absurd h (by decide)
    · exact absurd h (by decide)
  · rw [mem_visualStructureParts]
    rintro (h|h|h|h|h|⟨hf,h⟩|⟨hc,h⟩|⟨hf,h⟩|⟨hc,h⟩|h|h)
    · exact absurd h (ne_title_part_of_take2 _ _ (by decide))
    · exact absurd h (by decide)
    · exact absurd h (by decide)
    · exact absurd h (by rw [quick_overview_const]; decide)
    · exact absurd h (by decide)
    · exact absurd hf (by decide)
    · exact absurd h (by decide)
    · exact absurd hf (by decide)
    · exact absurd h (ne_codeSection_of_take2 _ _ (by decide))
    · exact absurd h (by decide)
    · exact absurd h (by decide)
  · intro b hb1 hb2
    rw [mem_visualStructureParts, mem_visualStructureParts]
    simp [hb1, hb2]

/-- Claim C6 witness: concrete instances of the profile-gating statement on
the empty document — the architecture block is present for `iot`, and the
table of contents is present for `iot` iff it is present for `tutorial`. -/
theorem claim_C6_witness :
    _generate_architecture_section ∈ visualStructureParts {} "iot"
    ∧ (_generate_toc ∈ visualStructureParts {} "iot"
        ↔ _generate_toc ∈ visualStructureParts {} "tutorial") :=
  ⟨(claim_C6 {}).1.1, (claim_C6 {}).2.2 _generate_toc (by decide) (by decide)⟩

/-- Claim C7: when `code_blocks` is empty, no code section block of any
shape (in particular no "## 4. Software Setup" heading and no stray empty
fenced block, which only `_generate_code_section` emits) appears among the
rendered blocks, for any profile. -/
theorem claim_C7 (parsed : ParsedDocument) (fmt : String) (bs : List CodeBlock)
    (h : parsed.code_blocks = []) :
    _generate_code_section bs ∉ visualStructureParts parsed fmt := by
  rw [mem_visualStructureParts]
  rintro (hm|hm|hm|hm|hm|⟨hf,hm⟩|⟨hc,hm⟩|⟨hf,hm⟩|⟨hc,hm⟩|hm|hm)
  · have h2 := codeSection_take2 bs
    rw [hm, title_part_take2] at h2
    exact absurd h2 (by decide)
  · have h2 := codeSection_take2 bs
    rw [hm] at h2
    exact absurd h2 (by decide)
  · have h2 := codeSection_take2 bs
    rw [hm] at h2
    exact absurd h2 (by decide)
  · have h2 := codeSection_take2 bs
    rw [hm, quick_overview_const] at h2
    exact absurd h2 (by decide)
  · have h2 := codeSection_take2 bs
    rw [hm] at h2
    exact absurd h2 (by decide)
  · have h2 := codeSection_take2 bs
    rw [hm] at h2
    exact absurd h2 (by decide)
  · have h2 := codeSection_take2 bs
    rw [hm] at h2
    exact absurd h2 (by decide)
  · have h2 := codeSection_take2 bs
    rw [hm] at h2
    exact absurd h2 (by decide)
  · exact hc h
  · have h2 := codeSection_take2 bs
    rw [hm] at h2
    exact absurd h2 (by decide)
  · have h2 := codeSection_take2 bs
    rw [hm] at h2
    exact absurd h2 (by decide)

/-- Claim C7 witness: the empty-blocks code section is not emitted for the
empty document on the `iot` profile. -/
theorem claim_C7_witness :
    _generate_code_section [] ∉ visualStructureParts {} "iot" :=
  claim_C7 {} "iot" [] rfl

/-! ### The diagram emitter: unrecognized tags are inert -/

theorem flowchartLines_append (xs ys : List DiagramElement) :
    flowchartLines (xs ++ ys) = flowchartLines xs ++ flowchartLines ys := by
  induction xs with
  | nil => rfl
  | cons x xs ih => simp [flowchartLines, ih]

theorem participantLines_append (xs ys : List DiagramElement) :
    participantLines (xs ++ ys) = participantLines xs ++ participantLines ys := by
  induction xs with
  | nil => rfl
  | cons x xs ih => simp [participantLines, ih]

theorem messageLines_append (xs ys : List DiagramElement) :
    messageLines (xs ++ ys) = messageLines xs ++ messageLines ys := by
  induction xs with
  | nil => rfl
  | cons x xs ih => simp [messageLines, ih]

theorem classLines_append (xs ys : List DiagramElement) :
    classLines (xs ++ ys) = classLines xs ++ classLines ys := by
  induction xs with
  | nil => rfl
  | cons x xs ih => simp [classLines, ih]

theorem genericLines_append (xs ys : List DiagramElement) :
    genericLines (xs ++ ys) = genericLines xs ++ genericLines ys := by
  induction xs with
  | nil => rfl
  | cons x xs ih => simp [genericLines, ih]

theorem flowchartLines_cons_skip (e : DiagramElement) (post : List DiagramElement)
    (h1 : e.type ≠ "node") (h2 : e.type ≠ "edge") :
    flowchartLines (e :: post) = flowchartLines post := by
  simp [flowchartLines, flowchartElementLines, h1, h2]

theorem participantLines_cons_skip (e : DiagramElement) (post : List DiagramElement)
    (h : e.type ≠ "participant") :
    participantLines (e :: post) = participantLines post := by
  simp [participantLines, h]

theorem messageLines_cons_skip (e : DiagramElement) (post : List DiagramElement)
    (h : e.type ≠ "message") :
    messageLines (e :: post) = messageLines post := by
  simp [messageLines, h]

theorem classLines_cons_skip (e : DiagramElement) (post : List DiagramElement)
    (h : e.type ≠ "class") :
    classLines (e :: post) = classLines post := by
  simp [classLines, classElementLines, h]

theorem genericLines_cons_skip (e : DiagramElement) (post : List DiagramElement)
    (h1 : e.type ≠ "node") (h2 : e.type ≠ "edge") :
    genericLines (e :: post) = genericLines post := by
  simp [genericLines, genericElementLines, h1, h2]

theorem generate_flowchart_skip (pre post : List DiagramElement) (e : DiagramElement)
    (h1 : e.type ≠ "node") (h2 : e.type ≠ "edge") :
    _generate_flowchart (pre ++ e :: post) = _generate_flowchart (pre ++ post) := by
  simp only [_generate_flowchart, flowchartLines_append,
    flowchartLines_cons_skip e post h1 h2]

theorem generate_sequence_skip (pre post : List DiagramElement) (e : DiagramElement)
    (h1 : e.type ≠ "participant") (h2 : e.type ≠ "message") :
    _generate_sequence_diagram (pre ++ e :: post)
      = _generate_sequence_diagram (pre ++ post) := by
  simp only [_generate_sequence_diagram, participantLines_append, messageLines_append,
    participantLines_cons_skip e post h1, messageLines_cons_skip e post h2]

theorem generate_class_skip (pre post : List DiagramElement) (e : DiagramElement)
    (h : e.type ≠ "class") :
    _generate_class_diagram (pre ++ e :: post) = _generate_class_diagram (pre ++ post) := by
  simp only [_generate_class_diagram, classLines_append, classLines_cons_skip e post h]

theorem timelineLines_skip (pre post : List DiagramElement) (e : DiagramElement)
    (h1 : e.type ≠ "section") (h2 : e.type ≠ "event") :
    ∀ cur : Option String,
      timelineLines cur (pre ++ e :: post) = timelineLines cur (pre ++ post) := by
  induction pre with
  | nil => intro cur; simp [timelineLines, h1, h2]
  | cons x xs ih =>
    intro cur
    simp only [List.cons_append, timelineLines]
    split
    · exact congrArg _ (ih _)
    · split
      · exact congrArg _ (ih _)
      · exact ih cur

theorem generate_timeline_skip (pre post : List DiagramElement) (e : DiagramElement)
    (h1 : e.type ≠ "section") (h2 : e.type ≠ "event") :
    _generate_timeline (pre ++ e :: post) = _generate_timeline (pre ++ post) := by
  simp only [_generate_timeline, timelineLines_skip pre post e h1 h2 none]

theorem generate_generic_skip (dt : DiagramType) (pre post : List DiagramElement)
    (e : DiagramElement) (h1 : e.type ≠ "node") (h2 : e.type ≠ "edge") :
    _generate_generic_diagram dt (pre ++ e :: post)
      = _generate_generic_diagram dt (pre ++ post) := by
  simp only [_generate_generic_diagram, genericLines_append,
    genericLines_cons_skip e post h1 h2]

/-- Claim C8: for every diagram kind, inserting an element whose tag the
kind's strategy does not recognize, at any position, leaves the emitted
diagram unchanged — unrecognized tags are silently ignored and do not
affect the surrounding recognized elements. -/
theorem claim_C8 (dt : DiagramType) (pre post : List DiagramElement)
    (e : DiagramElement) (h : e.type ∉ handledTags dt) :
    generate_diagram dt (pre ++ e :: post) = generate_diagram dt (pre ++ post) := by
  cases dt with
  | FLOWCHART =>
    simp only [handledTags, List.mem_cons, List.mem_singleton, not_or] at h
    exact generate_flowchart_skip pre post e h.1 h.2.1
  | SEQUENCE =>
    simp only [handledTags, List.mem_cons, List.mem_singleton, not_or] at h
    exact generate_sequence_skip pre post e h.1 h.2.1
  | CLASS =>
    simp only [handledTags, List.mem_cons, List.mem_singleton, not_or] at h
    exact generate_class_skip pre post e h.1
  | TIMELINE =>
    simp only [handledTags, List.mem_cons, List.mem_singleton, not_or] at h
    exact generate_timeline_skip pre post e h.1 h.2.1
  | STATE =>
    simp only [handledTags, List.mem_cons, List.mem_singleton, not_or] at h
    exact generate_generic_skip DiagramType.STATE pre post e h.1 h.2.1
  | ER =>
    simp only [handledTags, List.mem_cons, List.mem_singleton, not_or] at h
    exact generate_generic_skip DiagramType.ER pre post e h.1 h.2.1
  | NETWORK =>
    simp only [handledTags, List.mem_cons, List.mem_singleton, not_or] at h
    exact generate_generic_skip DiagramType.NETWORK pre post e h.1 h.2.1
  | JOURNEY =>
    simp only [handledTags, List.mem_cons, List.mem_singleton, not_or] at h
    exact generate_generic_skip DiagramType.JOURNEY pre post e h.1 h.2.1

/-- Claim C8 witness: an element with the unknown tag `"mystery"` between
two `node` elements leaves the flowchart output identical to the list
without it. -/
theorem claim_C8_witness :
    generate_diagram DiagramType.FLOWCHART
        ([{ type := "node", id := "A", label := some "Start" }]
          ++ { type := "mystery" }
            :: [{ type := "node", id := "B", label := some "End" }])
      = generate_diagram DiagramType.FLOWCHART
          ([{ type := "node", id := "A", label := some "Start" }]
            ++ [{ type := "node", id := "B", label := some "End" }]) :=
  claim_C8 DiagramType.FLOWCHART _ _ _ (by decide)

/-- Claim C9: `transform` never reads the stored configuration — two
agents initialized with any two configurations (including the built-in
default via `none`) produce identical output on every input and format. -/
theorem claim_C9 (c1 c2 : Option Config) (input_text format_type : String) :
    (Agent.init c1).transform input_text format_type
      = (Agent.init c2).transform input_text format_type := rfl

end VisualDoc
